import Mathlib

/-!
Verification of the Wokwi IoT humidity-monitoring controller (`src/main.py`)
against its natural-language specification.

The embedding is shallow: each Python function of `main.py` becomes a Lean
definition of the same name.  External effects (LCD writes, sleeps, log
lines, HTTP requests) are collected in an explicit trace (`List Effect`) in
program order.  JSON values are modelled by the inductive `Json`; Python
runtime errors raised by dictionary/list access are modelled by `PyErr`
through `Except`.  Numeric values use `ℚ` (the comparisons and arithmetic
performed by the program are exact on the values it handles).  The text of a
caught Python exception object is not modelled; log messages therefore carry
a fixed placeholder where the source interpolates the exception.  HTTP
request bodies are recorded as the `Json` value the source passes to
`ujson.dumps` (the serialisation itself is not re-implemented).
-/

/-- A JSON-like value as produced by `response.json()` in MicroPython. -/
inductive Json where
  | null : Json
  | bool (b : Bool) : Json
  | num (q : ℚ) : Json
  | str (s : String) : Json
  | arr (xs : List Json) : Json
  | obj (fields : List (String × Json)) : Json

/-- Python runtime errors that the modelled dictionary/list accesses can raise. -/
inductive PyErr where
  | keyError : PyErr
  | indexError : PyErr
  | attributeError : PyErr
  | typeError : PyErr
deriving DecidableEq, Repr

/-- Python truthiness of a JSON value (`None`, `False`, `0`, the empty
string, the empty list and the empty dictionary are falsy). -/
def pyTruthy : Json → Bool
  | .null => false
  | .bool b => b
  | .num q => q != 0
  | .str s => s != ""
  | .arr xs => !xs.isEmpty
  | .obj fs => !fs.isEmpty

/-- Python `d.get(key, default)`: only dictionaries have `.get`; on any other
value the attribute access raises `AttributeError`. -/
def pyGet (j : Json) (key : String) (default : Json) : Except PyErr Json :=
  match j with
  | .obj fields => .ok ((fields.lookup key).getD default)
  | _ => .error .attributeError

/-- Python subscript `x[0]`: index 0 of a list (raising `IndexError` when
empty), `KeyError` on a JSON-parsed dictionary (its keys are strings, never
the integer 0), the first character of a string, `TypeError` otherwise. -/
def pySub0 (j : Json) : Except PyErr Json :=
  match j with
  | .arr [] => .error .indexError
  | .arr (x :: _) => .ok x
  | .obj _ => .error .keyError
  | .str s => if s.isEmpty then .error .indexError else .ok (.str (toString s.front))
  | _ => .error .typeError

/-- Python `x == 'ON'` where `x` is an arbitrary JSON value: true only when
`x` is the very string, false (no error) otherwise. -/
def jsonEqStr (j : Json) (s : String) : Bool :=
  match j with
  | .str t => t == s
  | _ => false

/-- The result of `utime.localtime()` (the fields the program uses). -/
structure LocalTime where
  year : ℕ
  month : ℕ
  mday : ℕ
  hour : ℕ
  minute : ℕ
  second : ℕ
deriving DecidableEq, Repr

/-- Zero-pad a natural number to `w` digits, as Python `format` with `:0wd`. -/
def padNum (w : ℕ) (n : ℕ) : String :=
  let s := toString n
  String.mk (List.replicate (w - s.length) '0') ++ s

/-- The timestamp string `"YYYY-MM-DD HH:MM:SS"` built in `store_humidity_data`. -/
def formatDatetime (t : LocalTime) : String :=
  padNum 4 t.year ++ "-" ++ padNum 2 t.month ++ "-" ++ padNum 2 t.mday ++ " " ++
    padNum 2 t.hour ++ ":" ++ padNum 2 t.minute ++ ":" ++ padNum 2 t.second

/-- Rendering of a rational with two decimal places, as Python `:.2f`. -/
def format2 (q : ℚ) : String :=
  let n : ℤ := round (q * 100)
  toString (n / 100) ++ "." ++ padNum 2 (n % 100).toNat

/-- CONFIG["SENSOR_STATUS_ENDPOINT"]. -/
def SENSOR_STATUS_ENDPOINT : String :=
  "https://apex.oracle.com/pls/apex/leds/sensor_status/status?id=1"

/-- CONFIG["DATA_INSERT_ENDPOINT"]. -/
def DATA_INSERT_ENDPOINT : String :=
  "https://apex.oracle.com/pls/apex/leds/sensor_status/data"

/-- CONFIG["GEMINI_API_KEY"]. -/
def GEMINI_API_KEY : String := ""

/-- CONFIG["GEMINI_ENDPOINT"]. -/
def GEMINI_ENDPOINT : String :=
  "https://generativelanguage.googleapis.com/v1beta/models/gemini-1.5-flash:generateContent"

/-- CONFIG["IDEAL_HUMIDITY_LOW"]. -/
def IDEAL_HUMIDITY_LOW : ℚ := 60

/-- CONFIG["IDEAL_HUMIDITY_HIGH"]. -/
def IDEAL_HUMIDITY_HIGH : ℚ := 75

/-- An observable external effect performed by the program, in program order:
an LCD clear-write-hold (`update_lcd`), a `utime.sleep`, a log line
(level, message), or an HTTP request (GET, or POST with content type and the
JSON body passed to `ujson.dumps`). -/
inductive Effect where
  | lcd (msg : String) (delay : ℕ) : Effect
  | slept (seconds : ℕ) : Effect
  | logged (level : String) (msg : String) : Effect
  | httpGet (url : String) : Effect
  | httpPost (url : String) (contentType : String) (body : Json) : Effect

/-- Behaviour of one HTTP exchange, supplied by the environment: either the
transport raises, or a response object is obtained whose `.json()` either
raises (`none`) or parses to a value (`some j`). -/
inductive TransportOutcome where
  | raise : TransportOutcome
  | ok (body : Option Json) : TransportOutcome

/-- The error-log message of `request_endpoint`'s `except` clause (the
exception text after the URL is a fixed placeholder). -/
def endpointFailMsg (url : String) : String :=
  "Failed to reach endpoint " ++ url ++ ": exception"

/-- The error-log message of `request_gemini_response`'s `except` clause. -/
def geminiFailMsg : String :=
  "Failed to reach Gemini endpoint: exception"

/-- The error-log message of `process_humidity`'s `except` clause. -/
def sensorFailMsg : String :=
  "Sensor error: exception"

/-- `ujson.dumps(params)` argument for a POST: `None` serialises as JSON null. -/
def jsonOfOpt : Option Json → Json
  | none => .null
  | some j => j

/-- Shallow embedding of `request_endpoint(url, params, method)`.  GET parses
the body; POST sends a JSON-encoded body with a `Content-Type:
application/json` header and returns `None` before any parse; every transport
or parse failure is caught, logged at error level with the failing URL, and
surfaces as `none`.  The function is total: no exception escapes.  (An
unknown method leaves `response` unbound, so the later `response.json()`
raises `NameError`, also caught and logged.) -/
def request_endpoint (url : String) (params : Option Json) (method : String)
    (t : TransportOutcome) : Option Json × List Effect :=
  if method = "get" then
    match t with
    | .raise => (none, [.httpGet url, .logged "error" (endpointFailMsg url)])
    | .ok none => (none, [.httpGet url, .logged "error" (endpointFailMsg url)])
    | .ok (some j) => (some j, [.httpGet url])
  else if method = "post" then
    match t with
    | .raise =>
        (none, [.httpPost url "application/json" (jsonOfOpt params),
                .logged "error" (endpointFailMsg url)])
    | .ok _ =>
        (none, [.httpPost url "application/json" (jsonOfOpt params)])
  else
    (none, [.logged "error" (endpointFailMsg url)])

/-- Recognises an error-level log entry in a trace. -/
def Effect.isErrorLog : Effect → Bool
  | .logged lvl _ => lvl == "error"
  | _ => false

/-- Shallow embedding of the body of `check_sensor_status` after the request:
the falsy-or with the empty dictionary, then
`data.get("items", ...)[0].get("status", 'OFF') == 'ON'`, where the default
of the `items` lookup is the empty dictionary and the subscript and
attribute accesses can raise. -/
def parse_sensor_status (resp : Option Json) : Except PyErr Bool := do
  let data := match resp with
    | none => Json.obj []
    | some j => if pyTruthy j then j else Json.obj []
  let items ← pyGet data "items" (Json.obj [])
  let first ← pySub0 items
  let st ← pyGet first "status" (Json.str "OFF")
  pure (jsonEqStr st "ON")

/-- Shallow embedding of `check_sensor_status()`: performs the status GET and
parses the result; the parse step can raise (and then the error propagates to
`main`, which has no handler). -/
def check_sensor_status (t : TransportOutcome) : Except PyErr Bool × List Effect :=
  let r := request_endpoint SENSOR_STATUS_ENDPOINT none "get" t
  (parse_sensor_status r.1, r.2)

/-- The classifier body of `calculate_humidity_status`, with the two CONFIG
thresholds passed explicitly. -/
def humidity_status_with (low high humidity : ℚ) : String :=
  if humidity < low then "Too Dry!"
  else if humidity > high then "Too Humid!"
  else "Optimal"

/-- Shallow embedding of `calculate_humidity_status(humidity)` at the CONFIG
thresholds. -/
def calculate_humidity_status (humidity : ℚ) : String :=
  humidity_status_with IDEAL_HUMIDITY_LOW IDEAL_HUMIDITY_HIGH humidity

/-- Shallow embedding of `calculate_average_humidity()`, with the global
`humidity_readings` list passed explicitly:
`sum(readings) / len(readings) if readings else 0`. -/
def calculate_average_humidity (humidity_readings : List ℚ) : ℚ :=
  if humidity_readings.isEmpty then 0
  else humidity_readings.sum / (humidity_readings.length : ℚ)

/-- The `params` dictionary built by `store_humidity_data`. -/
def upload_payload (humidity avg_humidity : ℚ) (now : LocalTime) : Json :=
  .obj [("humidity", .num humidity),
        ("datetime", .str (formatDatetime now)),
        ("avg_humidity", .num avg_humidity)]

/-- Shallow embedding of `store_humidity_data(humidity, avg_humidity)`:
formats the local clock and POSTs the payload through `request_endpoint`
(whose result, always `None` for POST, is discarded). -/
def store_humidity_data (humidity avg_humidity : ℚ) (now : LocalTime)
    (t : TransportOutcome) : List Effect :=
  (request_endpoint DATA_INSERT_ENDPOINT
    (some (upload_payload humidity avg_humidity now)) "post" t).2

/-- The advisory URL with the API key as query parameter. -/
def gemini_url : String := GEMINI_ENDPOINT ++ "?key=" ++ GEMINI_API_KEY

/-- The advisory request body built by `request_gemini_response`. -/
def gemini_payload (prompt : String) : Json :=
  .obj [("contents", .arr [.obj [("parts", .arr [.obj [("text", .str prompt)]])]])]

/-- Shallow embedding of `request_gemini_response(prompt)`: POST, then parse;
any transport or parse failure is caught, logged, and yields `None`. -/
def request_gemini_response (prompt : String) (t : TransportOutcome) :
    Option Json × List Effect :=
  match t with
  | .raise =>
      (none, [.httpPost gemini_url "application/json" (gemini_payload prompt),
              .logged "error" geminiFailMsg])
  | .ok none =>
      (none, [.httpPost gemini_url "application/json" (gemini_payload prompt),
              .logged "error" geminiFailMsg])
  | .ok (some j) =>
      (some j, [.httpPost gemini_url "application/json" (gemini_payload prompt)])

/-- Python `s.split()`: split on whitespace runs, discarding empty pieces. -/
def pySplitWs (s : String) : List String :=
  (s.split Char.isWhitespace).filter (fun w => w != "")

/-- The truncation `' '.join(advice_text.split()[:20]) + '...'`. -/
def truncateAdvice (s : String) : String :=
  String.intercalate " " ((pySplitWs s).take 20) ++ "..."

/-- The prompt string built by `generate_vegetable_suggestions` (the numeric
rendering of the humidity is abstracted by `format2`). -/
def advicePrompt (humidity : ℚ) (humidity_status : String) : String :=
  "The current humidity level is " ++ format2 humidity ++ "%, status: " ++
    humidity_status ++
    ". What brief advice would you provide for vegetable processing under these conditions?"

/-- The field extraction performed on a truthy advisory response:
`response.get("candidates", ...)` with a one-empty-dictionary list as
default, subscript 0, `.get("content", ...)` with empty-dictionary default,
`.get("parts", [])`, then `generated_text[0].get("text", "No advice
available.")` and the truncation (`.split()` on a non-string raises
`AttributeError`).  The subscript on `generated_text` raises `IndexError`
when the parts list is empty. -/
def adviceFromResponse (j : Json) : Except PyErr String := do
  let cands ← pyGet j "candidates" (Json.arr [Json.obj []])
  let c0 ← pySub0 cands
  let content ← pyGet c0 "content" (Json.obj [])
  let parts ← pyGet content "parts" (Json.arr [])
  let p0 ← pySub0 parts
  let txt ← pyGet p0 "text" (Json.str "No advice available.")
  match txt with
  | .str s => pure (truncateAdvice s)
  | _ => .error .attributeError

/-- Shallow embedding of `generate_vegetable_suggestions(humidity, status)`.
A falsy response (`None` after a caught failure, or an empty dictionary)
shows the fixed "Failed to get advice" message; a truthy response goes
through the field extraction, whose errors propagate to the caller. -/
def generate_vegetable_suggestions (humidity : ℚ) (humidity_status : String)
    (t : TransportOutcome) : Except PyErr Unit × List Effect :=
  let r := request_gemini_response (advicePrompt humidity humidity_status) t
  match r.1 with
  | some j =>
      if pyTruthy j then
        match adviceFromResponse j with
        | .ok advice_text =>
            (.ok (), r.2 ++ [.lcd (humidity_status ++ "\n" ++ advice_text) 3])
        | .error e => (.error e, r.2)
      else (.ok (), r.2 ++ [.lcd "Failed to get advice" 2])
  | none => (.ok (), r.2 ++ [.lcd "Failed to get advice" 2])

/-- Outcome of `dht_sensor.measure(); dht_sensor.humidity()`: either the
sensor access raises, or it returns a value (`none` modelling Python
`None`). -/
inductive SensorOutcome where
  | raises : SensorOutcome
  | value (humidity : Option ℚ) : SensorOutcome

/-- The first LCD message of a successful reading, `Humidity: <v>%` on one
line and the status label on the next. -/
def humidityLcdMsg (humidity : ℚ) : String :=
  "Humidity: " ++ format2 humidity ++ "%\n" ++ calculate_humidity_status humidity

/-- Shallow embedding of `process_humidity()`, with the global history passed
and returned explicitly.  A raising sensor access goes to the `except`
clause; a `None` humidity skips the entire `if` body silently; otherwise the
value is appended, the average computed over the updated history, the
reading displayed, the advisory step run, and — only when the advisory step
did not raise — the upload issued.  An exception from the advisory field
extraction is caught by the same `except` clause, which logs and shows
"Sensor error"; the already-appended reading is kept. -/
def process_humidity (sensor : SensorOutcome) (advT uploadT : TransportOutcome)
    (now : LocalTime) (hist : List ℚ) : List ℚ × List Effect :=
  match sensor with
  | .raises => (hist, [.logged "error" sensorFailMsg, .lcd "Sensor error" 2])
  | .value none => (hist, [])
  | .value (some humidity) =>
      let g := generate_vegetable_suggestions humidity
                 (calculate_humidity_status humidity) advT
      match g.1 with
      | .ok _ =>
          (hist ++ [humidity],
            .lcd (humidityLcdMsg humidity) 3 :: g.2 ++
              store_humidity_data humidity
                (calculate_average_humidity (hist ++ [humidity])) now uploadT)
      | .error _ =>
          (hist ++ [humidity],
            .lcd (humidityLcdMsg humidity) 3 :: g.2 ++
              [.logged "error" sensorFailMsg, .lcd "Sensor error" 2])

/-- The environment of one loop iteration: the transport behaviour of the
three remote calls, the sensor outcome, and the local clock. -/
structure CycleEnv where
  statusT : TransportOutcome
  sensor : SensorOutcome
  advisoryT : TransportOutcome
  uploadT : TransportOutcome
  now : LocalTime

/-- The observable result of one iteration of `main`'s `while True` body:
the updated history, the effect trace, and — when the iteration raised an
uncaught exception, halting the loop — that error. -/
structure CycleResult where
  hist : List ℚ
  trace : List Effect
  raised : Option PyErr

/-- Shallow embedding of one iteration of the `while True` loop in `main`:
process when `check_sensor_status()` holds, otherwise show `Sensor is OFF`;
always afterwards show `Sensor working...` and sleep 2 seconds.  An
exception from `check_sensor_status` is uncaught. -/
def mainCycle (env : CycleEnv) (hist : List ℚ) : CycleResult :=
  match (check_sensor_status env.statusT).1 with
  | .error e => ⟨hist, (check_sensor_status env.statusT).2, some e⟩
  | .ok enabled =>
      if enabled then
        ⟨(process_humidity env.sensor env.advisoryT env.uploadT env.now hist).1,
          (check_sensor_status env.statusT).2 ++
            (process_humidity env.sensor env.advisoryT env.uploadT env.now hist).2 ++
            [.lcd "Sensor working..." 2, .slept 2],
          none⟩
      else
        ⟨hist,
          (check_sensor_status env.statusT).2 ++
            [.lcd "Sensor is OFF" 2, .lcd "Sensor working..." 2, .slept 2],
          none⟩

/-- Recognises a POST to the data-insert endpoint. -/
def Effect.isUploadReq : Effect → Bool
  | .httpPost url _ _ => url == DATA_INSERT_ENDPOINT
  | _ => false

/-- Recognises a POST to the advisory endpoint. -/
def Effect.isAdvisoryReq : Effect → Bool
  | .httpPost url _ _ => url == gemini_url
  | _ => false

/-- The upload requests of a trace. -/
def uploads (tr : List Effect) : List Effect := tr.filter Effect.isUploadReq

/-- The advisory requests of a trace. -/
def advisoryCalls (tr : List Effect) : List Effect := tr.filter Effect.isAdvisoryReq

/-- Whether some LCD write of the trace shows the given message. -/
def showsMsg (msg : String) (tr : List Effect) : Bool :=
  tr.any fun e => match e with
    | .lcd m _ => m == msg
    | _ => false

/-- A fixed local-clock value for concrete runs. -/
def t0 : LocalTime := ⟨2024, 12, 2, 13, 5, 9⟩

/-- A well-formed enabled status response. -/
def statusOnJson : Json :=
  Json.obj [("items", Json.arr [Json.obj [("status", Json.str "ON")]])]

/-- A well-formed disabled status response. -/
def statusOffJson : Json :=
  Json.obj [("items", Json.arr [Json.obj [("status", Json.str "OFF")]])]

/-- An advisory response with the expected nesting but an empty parts list. -/
def emptyPartsResp : Json :=
  Json.obj [("candidates",
    Json.arr [Json.obj [("content", Json.obj [("parts", Json.arr [])])]])]

/-- Enabled cycle, sensor reads 65.0, advisory and upload transports succeed
but their bodies fail to parse. -/
def env65 : CycleEnv := ⟨.ok (some statusOnJson), .value (some 65), .ok none, .ok none, t0⟩

/-- Enabled cycle in which the sensor returns Python `None`. -/
def envNull : CycleEnv := ⟨.ok (some statusOnJson), .value none, .ok none, .ok none, t0⟩

/-- Enabled cycle, sensor reads 65.0, the advisory response parses to a
structure with an empty parts list. -/
def envC6 : CycleEnv :=
  ⟨.ok (some statusOnJson), .value (some 65), .ok (some emptyPartsResp), .ok none, t0⟩

lemma gemini_url_ne_data : (gemini_url == DATA_INSERT_ENDPOINT) = false := by decide

lemma status_ok_forces_parse (env : CycleEnv)
    (hs : (check_sensor_status env.statusT).1 = .ok true) :
    ∃ j, env.statusT = .ok (some j) ∧
      (check_sensor_status env.statusT).2 = [.httpGet SENSOR_STATUS_ENDPOINT] := by
  rcases ht : env.statusT with _ | p
  · rw [ht] at hs
    simp [check_sensor_status, request_endpoint] at hs
    rw [show parse_sensor_status none = Except.error PyErr.keyError from rfl] at hs
    simp at hs
  · rcases p with _ | j
    · rw [ht] at hs
      simp [check_sensor_status, request_endpoint] at hs
      rw [show parse_sensor_status none = Except.error PyErr.keyError from rfl] at hs
      simp at hs
    · exact ⟨j, rfl, by simp [check_sensor_status, request_endpoint]⟩

lemma process_humidity_hist_some (v : ℚ) (a u : TransportOutcome) (n : LocalTime)
    (hist : List ℚ) :
    (process_humidity (.value (some v)) a u n hist).1 = hist ++ [v] := by
  rcases hg : (generate_vegetable_suggestions v (calculate_humidity_status v) a).1 with e | x <;>
    simp [process_humidity, hg]

@[simp] lemma uploads_nil : uploads [] = [] := rfl

@[simp] lemma uploads_append (a b : List Effect) :
    uploads (a ++ b) = uploads a ++ uploads b :=
  List.filter_append ..

@[simp] lemma uploads_cons_lcd (m : String) (d : ℕ) (tr : List Effect) :
    uploads (.lcd m d :: tr) = uploads tr := rfl

@[simp] lemma uploads_cons_slept (n : ℕ) (tr : List Effect) :
    uploads (.slept n :: tr) = uploads tr := rfl

@[simp] lemma uploads_cons_logged (l m : String) (tr : List Effect) :
    uploads (.logged l m :: tr) = uploads tr := rfl

@[simp] lemma uploads_cons_httpGet (u : String) (tr : List Effect) :
    uploads (.httpGet u :: tr) = uploads tr := rfl

@[simp] lemma uploads_advisory_trace (prompt : String) (t : TransportOutcome) :
    uploads (request_gemini_response prompt t).2 = [] := by
  rcases t with _ | p
  · simp [request_gemini_response, uploads, Effect.isUploadReq, gemini_url_ne_data]
  · rcases p with _ | j <;>
      simp [request_gemini_response, uploads, Effect.isUploadReq, gemini_url_ne_data]

@[simp] lemma uploads_generate (v : ℚ) (st : String) (t : TransportOutcome) :
    uploads (generate_vegetable_suggestions v st t).2 = [] := by
  by_cases hr : ∃ j, (request_gemini_response (advicePrompt v st) t).1 = some j ∧ pyTruthy j
  · obtain ⟨j, hj, htr⟩ := hr
    rcases ha : adviceFromResponse j with e | adv <;>
      simp [generate_vegetable_suggestions, hj, htr, ha]
  · rcases hj : (request_gemini_response (advicePrompt v st) t).1 with _ | j
    · simp [generate_vegetable_suggestions, hj]
    · have : ¬ pyTruthy j = true := fun hc => hr ⟨j, hj, hc⟩
      simp [generate_vegetable_suggestions, hj, this]

@[simp] lemma uploads_store (v avg : ℚ) (n : LocalTime) (t : TransportOutcome) :
    uploads (store_humidity_data v avg n t) =
      [.httpPost DATA_INSERT_ENDPOINT "application/json" (upload_payload v avg n)] := by
  rcases t with _ | p <;>
    simp [store_humidity_data, request_endpoint, uploads, Effect.isUploadReq, jsonOfOpt]

/-- Claim C7: for every remote-call invocation (GET or POST) in which the
transport raises or the response body fails to parse, `request_endpoint`
returns a null result, logs exactly one error entry whose message contains
the failing URL, and — being a total function into a plain pair — propagates
no exception to its caller. -/
theorem request_endpoint_failure_yields_null_and_one_log
    (url : String) (params : Option Json) (method : String) (t : TransportOutcome)
    (hm : method = "get" ∨ method = "post")
    (hf : t = .raise ∨ (method = "get" ∧ t = .ok none)) :
    (request_endpoint url params method t).1 = none ∧
    (request_endpoint url params method t).2.filter Effect.isErrorLog =
      [.logged "error" (endpointFailMsg url)] ∧
    ∃ s r, s ++ url ++ r = endpointFailMsg url := by
  rcases hf with rfl | ⟨hg, rfl⟩
  · rcases hm with rfl | rfl <;>
      refine ⟨?_, ?_, ⟨"Failed to reach endpoint ", ": exception", rfl⟩⟩ <;>
      simp [request_endpoint, Effect.isErrorLog, List.filter]
  · subst hg
    refine ⟨?_, ?_, ⟨"Failed to reach endpoint ", ": exception", rfl⟩⟩ <;>
      simp [request_endpoint, Effect.isErrorLog, List.filter]

/-- Witness for C7 at a concrete failing GET. -/
theorem request_endpoint_failure_yields_null_and_one_log_witness :
    (request_endpoint "https://example.org/x" none "get" .raise).1 = none :=
  (request_endpoint_failure_yields_null_and_one_log "https://example.org/x" none
    "get" .raise (Or.inl rfl) (Or.inl rfl)).1

/-- Claim C8: every POST through `request_endpoint` issues the request with
the JSON-encoded params as body and a `Content-Type: application/json`
header, and returns `none` without parsing the response body — the result is
independent of whatever the parse would have produced, whether the request
succeeds or fails. -/
theorem request_endpoint_post_fire_and_forget
    (url : String) (params : Option Json) (t : TransportOutcome) :
    (request_endpoint url params "post" t).1 = none ∧
    (∃ rest, (request_endpoint url params "post" t).2 =
      .httpPost url "application/json" (jsonOfOpt params) :: rest) ∧
    (∀ p q : Option Json,
      request_endpoint url params "post" (.ok p) =
        request_endpoint url params "post" (.ok q)) := by
  refine ⟨?_, ?_, fun p q => rfl⟩ <;>
    cases t <;> simp [request_endpoint]

/-- Claim C2: for all thresholds `low ≤ high` and every humidity `v`, the
classifier returns the too-dry label iff `v < low`, the too-humid label iff
`v > high`, and the optimal label iff `low ≤ v ≤ high`; both boundary values
yield the optimal label, and `calculate_humidity_status` is this classifier
at the CONFIG thresholds. -/
theorem humidity_classifier_correct (low high v : ℚ) (h : low ≤ high) :
    (humidity_status_with low high v = "Too Dry!" ↔ v < low) ∧
    (humidity_status_with low high v = "Too Humid!" ↔ high < v) ∧
    (humidity_status_with low high v = "Optimal" ↔ low ≤ v ∧ v ≤ high) ∧
    humidity_status_with low high low = "Optimal" ∧
    humidity_status_with low high high = "Optimal" ∧
    calculate_humidity_status v =
      humidity_status_with IDEAL_HUMIDITY_LOW IDEAL_HUMIDITY_HIGH v := by
  refine ⟨?_, ?_, ?_, ?_, ?_, rfl⟩ <;>
    unfold humidity_status_with <;>
    split_ifs with h1 h2 <;>
    simp_all <;>
    linarith

/-- Witness for C2 at the CONFIG thresholds: the boundary value 60 is
classified Optimal. -/
theorem humidity_classifier_correct_witness :
    humidity_status_with 60 75 60 = "Optimal" :=
  (humidity_classifier_correct 60 75 50 (by norm_num)).2.2.2.1

/-- Claim C3: the running average is 0 on the empty history, the arithmetic
mean of all recorded values on any non-empty history, and 60 after recording
exactly 50, 60, 70. -/
theorem average_spec :
    calculate_average_humidity [] = 0 ∧
    (∀ hist : List ℚ, hist ≠ [] →
       calculate_average_humidity hist = hist.sum / (hist.length : ℚ)) ∧
    calculate_average_humidity [50, 60, 70] = 60 := by
  refine ⟨rfl, fun hist hh => ?_, by norm_num [calculate_average_humidity]⟩
  simp [calculate_average_humidity, hh]

/-- Witness for C3 on a concrete non-empty history. -/
theorem average_spec_witness :
    calculate_average_humidity [50] = ([50] : List ℚ).sum / (([50] : List ℚ).length : ℚ) :=
  average_spec.2.1 [50] (by simp)

/-- Claim C1 (code bug evidence): when the status call fails (or yields a
body without `items`), `check_sensor_status` raises `KeyError` — the default
of the `items` lookup is the empty dictionary, and its subscript `[0]`
raises — and the error propagates out of the loop body uncaught: no idle
message is shown and the outer loop halts, contradicting the claim.  A
well-formed non-"ON" status, by contrast, is handled as the claim states. -/
theorem status_missing_items_halts_loop :
    (check_sensor_status .raise).1 = .error .keyError ∧
    (check_sensor_status (.ok none)).1 = .error .keyError ∧
    parse_sensor_status (some (Json.obj [("id", Json.num 1)])) = .error .keyError ∧
    parse_sensor_status (some statusOffJson) = .ok false ∧
    (mainCycle ⟨.raise, .value (some 65), .ok none, .ok none, t0⟩ []).raised =
      some .keyError ∧
    showsMsg "Sensor is OFF"
      (mainCycle ⟨.raise, .value (some 65), .ok none, .ok none, t0⟩ []).trace = false ∧
    showsMsg "Sensor working..."
      (mainCycle ⟨.raise, .value (some 65), .ok none, .ok none, t0⟩ []).trace = false ∧
    (mainCycle ⟨.ok (some statusOffJson), .value (some 65), .ok none, .ok none, t0⟩
      []).raised = none ∧
    showsMsg "Sensor is OFF"
      (mainCycle ⟨.ok (some statusOffJson), .value (some 65), .ok none, .ok none, t0⟩
        []).trace = true :=
  ⟨rfl, rfl, rfl, rfl, rfl, rfl, rfl, rfl, rfl⟩

/-- Claim C4 counterexample: in an enabled cycle whose sensor read returns
Python `None` without raising, no value is appended, no advisory or upload
request is issued and the loop continues — but, against the claim, the fixed
"Sensor error" message is NOT shown: the `if humidity is not None` guard has
no else branch and the cycle is skipped silently. -/
theorem null_reading_no_sensor_error_message :
    ¬ showsMsg "Sensor error" (mainCycle envNull []).trace = true ∧
    (mainCycle envNull []).hist = [] ∧
    uploads (mainCycle envNull []).trace = [] ∧
    advisoryCalls (mainCycle envNull []).trace = [] ∧
    (mainCycle envNull []).raised = none ∧
    (mainCycle envNull []).trace =
      [.httpGet SENSOR_STATUS_ENDPOINT, .lcd "Sensor working..." 2, .slept 2] :=
  ⟨by decide, rfl, rfl, rfl, rfl, rfl⟩

/-- Claim C4 as amended: for every enabled cycle whose sensor read returns a
null humidity value, no value is appended to the history, no advisory call
and no upload are issued, nothing at all is displayed for the processing
step (in particular no "Sensor error" message), and the loop proceeds to the
next cycle after the idle message and delay without raising. -/
theorem null_reading_skipped_silently (env : CycleEnv) (hist : List ℚ)
    (hs : (check_sensor_status env.statusT).1 = .ok true)
    (hn : env.sensor = .value none) :
    (mainCycle env hist).hist = hist ∧
    (mainCycle env hist).raised = none ∧
    uploads (mainCycle env hist).trace = [] ∧
    advisoryCalls (mainCycle env hist).trace = [] ∧
    showsMsg "Sensor error" (mainCycle env hist).trace = false ∧
    (mainCycle env hist).trace =
      [.httpGet SENSOR_STATUS_ENDPOINT, .lcd "Sensor working..." 2, .slept 2] := by
  obtain ⟨j, hj, htr⟩ := status_ok_forces_parse env hs
  simp [mainCycle, hs, htr, process_humidity, hn, uploads, advisoryCalls, showsMsg,
    Effect.isUploadReq, Effect.isAdvisoryReq]

/-- Witness for the amended C4 at a concrete enabled cycle. -/
theorem null_reading_skipped_silently_witness :
    (mainCycle envNull []).hist = [] :=
  (null_reading_skipped_silently envNull [] rfl rfl).1

/-- Claim C5 (code bug evidence): a truthy advisory response whose
candidates/content/parts chain ends in an empty parts list makes the
extraction raise `IndexError` instead of showing "Failed to get advice"; a
missing-candidates response raises the same way.  Only a null (or falsy)
response shows the fixed message. -/
theorem advisory_malformed_response_raises :
    (generate_vegetable_suggestions 65 "Optimal" (.ok (some emptyPartsResp))).1 =
      .error .indexError ∧
    showsMsg "Failed to get advice"
      (generate_vegetable_suggestions 65 "Optimal" (.ok (some emptyPartsResp))).2 = false ∧
    adviceFromResponse (Json.obj [("candidates", Json.arr [Json.obj []])]) =
      .error .indexError ∧
    (generate_vegetable_suggestions 65 "Optimal" (.ok none)).1 = .ok () ∧
    showsMsg "Failed to get advice"
      (generate_vegetable_suggestions 65 "Optimal" (.ok none)).2 = true ∧
    (generate_vegetable_suggestions 65 "Optimal" .raise).1 = .ok () ∧
    showsMsg "Failed to get advice"
      (generate_vegetable_suggestions 65 "Optimal" .raise).2 = true :=
  ⟨rfl, rfl, rfl, rfl, rfl, rfl, rfl⟩

/-- Claim C6 (code bug evidence): in an enabled cycle with a successful
sensor read, an `IndexError` raised by the advisory field extraction is
caught only by the cycle-level handler of `process_humidity` (showing
"Sensor error"), and the data upload — which depends only on the reading and
average — is skipped: no upload request appears in the trace, although the
advisory request was issued and the same cycle with a non-raising advisory
step does upload.  The outer loop is not aborted. -/
theorem advisory_crash_skips_upload :
    (mainCycle envC6 []).hist = [65] ∧
    (advisoryCalls (mainCycle envC6 []).trace).length = 1 ∧
    uploads (mainCycle envC6 []).trace = [] ∧
    showsMsg "Sensor error" (mainCycle envC6 []).trace = true ∧
    (mainCycle envC6 []).raised = none ∧
    (uploads (mainCycle env65 []).trace).length = 1 :=
  ⟨rfl, rfl, rfl, rfl, rfl, rfl⟩

/-- Claim C9: in every enabled cycle whose sensor returns `v`, the value is
appended to the history before the average is computed — every upload of the
cycle carries exactly the fields `humidity = v`, the formatted local-clock
datetime, and `avg_humidity` equal to the mean of the history including `v`
— and whenever the advisory step does not raise, exactly one such upload is
issued; with `v = 65` and the CONFIG thresholds the displayed status is
"Optimal". -/
theorem enabled_cycle_upload_payload (env : CycleEnv) (hist : List ℚ) (v : ℚ)
    (hs : (check_sensor_status env.statusT).1 = .ok true)
    (hv : env.sensor = .value (some v)) :
    (mainCycle env hist).hist = hist ++ [v] ∧
    (mainCycle env hist).raised = none ∧
    (∀ e ∈ uploads (mainCycle env hist).trace,
        e = .httpPost DATA_INSERT_ENDPOINT "application/json"
              (upload_payload v (calculate_average_humidity (hist ++ [v])) env.now)) ∧
    ((generate_vegetable_suggestions v (calculate_humidity_status v) env.advisoryT).1 =
        .ok () →
        uploads (mainCycle env hist).trace =
          [.httpPost DATA_INSERT_ENDPOINT "application/json"
              (upload_payload v (calculate_average_humidity (hist ++ [v])) env.now)]) ∧
    calculate_humidity_status 65 = "Optimal" ∧
    showsMsg (humidityLcdMsg v) (mainCycle env hist).trace = true := by
  obtain ⟨j, hj, htr⟩ := status_ok_forces_parse env hs
  rcases hg : (generate_vegetable_suggestions v (calculate_humidity_status v) env.advisoryT).1
    with e | x
  · refine ⟨?_, ?_, ?_, ?_, rfl, ?_⟩ <;>
      simp [mainCycle, hs, htr, process_humidity, hv, hg, showsMsg, List.any_append,
        List.any_cons]
  · refine ⟨?_, ?_, ?_, ?_, rfl, ?_⟩ <;>
      simp [mainCycle, hs, htr, process_humidity, hv, hg, showsMsg, List.any_append,
        List.any_cons]

/-- Witness for C9 at a concrete enabled cycle with reading 65. -/
theorem enabled_cycle_upload_payload_witness :
    (mainCycle env65 []).hist = [] ++ [(65 : ℚ)] :=
  (enabled_cycle_upload_payload env65 [] 65 rfl rfl).1

/-- Claim C10: one loop iteration either leaves the history unchanged or
appends exactly one value at the end (never removing, reordering or
modifying recorded values); in every enabled cycle with a successful sensor
read the appended value persists regardless of any later advisory or upload
failure; and there is a cycle whose history grows although it issues no
upload. -/
theorem history_append_only (env : CycleEnv) (hist : List ℚ) :
    ((mainCycle env hist).hist = hist ∨ ∃ v, (mainCycle env hist).hist = hist ++ [v]) ∧
    (∀ v, env.sensor = .value (some v) →
       (check_sensor_status env.statusT).1 = .ok true →
       (mainCycle env hist).hist = hist ++ [v]) ∧
    (∃ env2 : CycleEnv, ∃ hist2 : List ℚ,
       (mainCycle env2 hist2).hist.length = hist2.length + 1 ∧
       uploads (mainCycle env2 hist2).trace = []) := by
  refine ⟨?_, ?_, ⟨envC6, [], rfl, rfl⟩⟩
  · rcases hc : (check_sensor_status env.statusT).1 with e | b
    · left; simp [mainCycle, hc]
    · rcases b with _ | _
      · left; simp [mainCycle, hc]
      · rcases hv : env.sensor with _ | ov
        · left; simp [mainCycle, hc, process_humidity, hv]
        · rcases ov with _ | v
          · left; simp [mainCycle, hc, process_humidity, hv]
          · right; exact ⟨v, by simp [mainCycle, hc, hv, process_humidity_hist_some]⟩
  · intro v hv hc
    simp [mainCycle, hc, hv, process_humidity_hist_some]

/-- Witness for C10 on a concrete enabled cycle over a non-empty history. -/
theorem history_append_only_witness :
    (mainCycle env65 [1]).hist = [1] ++ [(65 : ℚ)] :=
  (history_append_only env65 [1]).2.1 65 rfl rfl
